import Mathlib

/-!
Verification of `companionsKQML` (companionsKQMLModule.py) against its
natural-language specification.

The Python source is shallowly embedded in Lean:

* Python strings are `List Char`.
* KQML wire terms (the pykqml classes `KQMLList`, `KQMLToken`, `KQMLString`)
  are the inductive `KQML`.
* Dynamically typed Python values flowing into the marshaller `listify` are
  the inductive `PyVal` (lists, tuples, strings, dicts, bools, KQML objects,
  and a catch-all whose string form is stored).
* Python exceptions are `Except PyErr`; fallible functions return
  `Except PyErr α`.
* Filesystem and process state consumed by port discovery are explicit
  environment records.

Behaviour of the external pykqml library, where the source depends on it, is
modelled as follows (noted per definition): `str()` of a KQML object prints a
token as its text, a quoted string in double quotes, and a list as the
space-separated forms in parentheses; indexing `obj[0]` yields the first
character of a token's or quoted string's text and the first element of a
list, raising `IndexError` when empty; `KQMLList(s)` for a string `s` builds
a list whose sole element is `KQMLToken(s)`.
-/

namespace Companions

/-- Python exceptions that the embedded fragments can raise. `assertionError`
is the `AssertionError` of a failed `assert`, `jsonDecodeError` the error
raised by `json.loads` on unparseable input, `ioError` an `IOError`/`OSError`
from socket writes. -/
inductive PyErr where
  | indexError
  | assertionError
  | jsonDecodeError
  | ioError
  deriving DecidableEq, Repr

/-- KQML wire terms: the pykqml value types used by the module.
`list` is `KQMLList`, `token` is `KQMLToken`, `qstring` is `KQMLString`. -/
inductive KQML where
  | list (elems : List KQML)
  | token (data : List Char)
  | qstring (data : List Char)

mutual
/-- Python `str()` of a pykqml object: a token prints as its text, a quoted
string in double quotes, a list as the space-separated element forms wrapped
in parentheses. -/
def strForm : KQML → List Char
  | .token s => s
  | .qstring s => '"' :: s ++ ['"']
  | .list xs => '(' :: (List.intercalate [' '] (strFormList xs)) ++ [')']

/-- String forms of the elements of a `KQMLList`. -/
def strFormList : List KQML → List (List Char)
  | [] => []
  | x :: xs => strForm x :: strFormList xs
end

/-- Dynamically typed Python values accepted by the marshaller `listify`
(source lines 585-633).  `pyother` stands for any object outside the
explicitly tested types and stores that object's `str()` form; `pykqml`
is a pykqml object handed back into `listify` (as `response_to_query` does
with query arguments). -/
inductive PyVal where
  | pylist (xs : List PyVal)
  | pytuple (xs : List PyVal)
  | pystr (s : List Char)
  | pydict (pairs : List (PyVal × PyVal))
  | pybool (b : Bool)
  | pykqml (k : KQML)
  | pyother (s : List Char)

mutual
/-- Size measure on `PyVal`, used only for termination of `listify`. -/
def pySize : PyVal → Nat
  | .pylist xs => 1 + pyListSize xs
  | .pytuple xs => 1 + pyListSize xs
  | .pystr s => 1 + s.length
  | .pydict prs => 1 + pyPairsSize prs
  | .pybool _ => 1
  | .pykqml _ => 1
  | .pyother _ => 1

/-- Size measure on lists of `PyVal`. -/
def pyListSize : List PyVal → Nat
  | [] => 0
  | x :: xs => 1 + pySize x + pyListSize xs

/-- Size measure on lists of `PyVal` pairs. -/
def pyPairsSize : List (PyVal × PyVal) → Nat
  | [] => 0
  | (a, b) :: xs => 4 + pySize a + pySize b + pyPairsSize xs
end

/-- Helper for `splitWs`: accumulates the current word (reversed) while
scanning. -/
def splitWsAux : List Char → List Char → List (List Char)
  | [], acc => if acc.isEmpty then [] else [acc.reverse]
  | c :: cs, acc =>
    if c.isWhitespace then
      if acc.isEmpty then splitWsAux cs [] else acc.reverse :: splitWsAux cs []
    else splitWsAux cs (c :: acc)

/-- Python `str.split()` with no separator argument: split on runs of
whitespace, dropping empty pieces. -/
def splitWs (l : List Char) : List (List Char) := splitWsAux l []

theorem length_le_of_mem_splitWsAux : ∀ (l acc t : List Char), t ∈ splitWsAux l acc →
    t.length ≤ l.length + acc.length := by
  intro l
  induction l with
  | nil =>
    intro acc t ht
    simp only [splitWsAux] at ht
    split at ht
    · simp at ht
    · simp at ht
      subst ht
      simp
  | cons c cs ih =>
    intro acc t ht
    simp only [splitWsAux] at ht
    split at ht
    · split at ht
      · have := ih [] t ht
        simp only [List.length_nil, List.length_cons] at this ⊢
        omega
      · rcases List.mem_cons.mp ht with h | h
        · subst h
          simp only [List.length_reverse, List.length_cons]
          omega
        · have := ih [] t h
          simp only [List.length_nil, List.length_cons] at this ⊢
          omega
    · have := ih (c :: acc) t ht
      simp only [List.length_cons] at this ⊢
      omega

theorem length_le_of_mem_splitWs {l t : List Char} (h : t ∈ splitWs l) : t.length ≤ l.length := by
  have := length_le_of_mem_splitWsAux l [] t h
  simpa using this

/-- Each piece produced by splitting the interior of a parenthesised string is
strictly smaller than the whole string; this is the termination argument for
the recursive call of `listify` on split pieces. -/
theorem piece_length_lt {s t : List Char} (hs : ' ' ∈ s)
    (ht : t ∈ splitWs ((s.drop 1).dropLast)) : t.length < s.length := by
  have h1 := length_le_of_mem_splitWs ht
  have h2 : ((s.drop 1).dropLast).length = s.length - 1 - 1 := by
    simp [List.length_dropLast, List.length_drop]
  have h5 : s.length ≠ 0 := by
    intro hz
    rw [List.length_eq_zero] at hz
    subst hz
    simp at hs
  omega

mutual
/-- Embedding of `listify` (source lines 585-633): takes a Python object and
returns it in KQML form.  The type checks of the source
(`isinstance(possible_list, list)`, `tuple`, `str`, `dict`, `bool`, else)
become the constructors of `PyVal`; `' ' in possible_list` is `' ' ∈ s`;
`possible_list[0] == '(' and possible_list[-1] == ')'` is the `head?`/
`getLast?` test (the string is nonempty in that branch since it contains a
space); `possible_list[1:-1].split()` is `splitWs ((s.drop 1).dropLast)`.
A pykqml object matches none of the `isinstance` tests and falls through to
`KQMLToken(str(possible_list))`. -/
def listify : PyVal → KQML
  | .pylist xs => .list (listifyList xs)
  | .pytuple xs =>
    match xs with
    | [a, b] => .list [listify a, .token ['.'], listify b]
    | other => .list (listifyList other)
  | .pystr s =>
    if h : ' ' ∈ s then
      if s.head? = some '(' ∧ s.getLast? = some ')' then
        .list (((splitWs ((s.drop 1).dropLast)).attach).map fun t => listify (.pystr t.1))
      else .qstring s
    else .token s
  | .pydict prs => .list (listifyPairs prs)
  | .pybool b => if b then .token ['t'] else .token "nil".data
  | .pykqml k => .token (strForm k)
  | .pyother s => .token s
  termination_by v => pySize v
  decreasing_by
  all_goals first
    | (simp only [pySize, pyListSize, pyPairsSize]; omega)
    | (have h1 := piece_length_lt h t.2
       simp only [pySize]
       omega)

/-- The list comprehension `[listify(each) for each in possible_list]`. -/
def listifyList : List PyVal → List KQML
  | [] => []
  | x :: xs => listify x :: listifyList xs
  termination_by l => pyListSize l
  decreasing_by
  all_goals (simp only [pySize, pyListSize, pyPairsSize]; omega)

/-- The list comprehension `[listify(pair) for pair in possible_list.items()]`:
each key/value pair of a dict is marshalled as a two-element tuple. -/
def listifyPairs : List (PyVal × PyVal) → List KQML
  | [] => []
  | (k, v) :: xs => listify (.pytuple [k, v]) :: listifyPairs xs
  termination_by ps => pyPairsSize ps
  decreasing_by
  all_goals (simp only [pySize, pyListSize, pyPairsSize]; omega)
end

mutual
/-- The marshalling rules as the specification states them (with the string
rule amended to test for a space character, which is what the source tests):
an ordered sequence becomes a `List` of element-wise conversions; an
exactly-two-element pair becomes the dotted-pair rendering
`[car, Token("."), cdr]`, other arities fall through to the sequence rule;
a string with no space becomes `Token(value)`, a space-containing string
wrapped in parentheses is split on whitespace into a recursively converted
`List`, and any other string becomes `QuotedString(value)`; a boolean becomes
`Token("t")`/`Token("nil")`; a mapping becomes a `List` of pair conversions;
anything else becomes a `Token` of its string form. -/
def specListify : PyVal → KQML
  | .pylist xs => .list (specListifyList xs)
  | .pytuple [a, b] => .list [specListify a, .token ['.'], specListify b]
  | .pytuple xs => .list (specListifyList xs)
  | .pystr s =>
    if h : ' ' ∉ s then .token s
    else if s.head? = some '(' ∧ s.getLast? = some ')' then
      .list (((splitWs ((s.drop 1).dropLast)).attach).map fun t => specListify (.pystr t.1))
    else .qstring s
  | .pybool b => if b then .token ['t'] else .token "nil".data
  | .pydict prs => .list (specListifyPairs prs)
  | .pykqml k => .token (strForm k)
  | .pyother s => .token s
  termination_by v => pySize v
  decreasing_by
  all_goals first
    | (simp only [pySize, pyListSize, pyPairsSize]; omega)
    | (have h1 := piece_length_lt (not_not.mp h) t.2
       simp only [pySize]
       omega)

/-- Element-wise conversion of a sequence, specification side. -/
def specListifyList : List PyVal → List KQML
  | [] => []
  | x :: xs => specListify x :: specListifyList xs
  termination_by l => pyListSize l
  decreasing_by
  all_goals (simp only [pySize, pyListSize, pyPairsSize]; omega)

/-- Pair-wise conversion of a mapping, specification side: each key/value
pair becomes a dotted pair directly. -/
def specListifyPairs : List (PyVal × PyVal) → List KQML
  | [] => []
  | (k, v) :: xs =>
    .list [specListify k, .token ['.'], specListify v] :: specListifyPairs xs
  termination_by ps => pyPairsSize ps
  decreasing_by
  all_goals (simp only [pySize, pyListSize, pyPairsSize]; omega)
end

theorem listify_pylist (xs : List PyVal) : listify (.pylist xs) = .list (listifyList xs) := by
  conv_lhs => rw [listify.eq_def]

theorem listify_pytuple_pair (a b : PyVal) :
    listify (.pytuple [a, b]) = .list [listify a, .token ['.'], listify b] := by
  conv_lhs => rw [listify.eq_def]

theorem listify_pytuple_nil : listify (.pytuple []) = .list (listifyList []) := by
  conv_lhs => rw [listify.eq_def]

theorem listify_pytuple_one (a : PyVal) : listify (.pytuple [a]) = .list (listifyList [a]) := by
  conv_lhs => rw [listify.eq_def]

theorem listify_pytuple_big (a b c : PyVal) (rest : List PyVal) :
    listify (.pytuple (a :: b :: c :: rest)) = .list (listifyList (a :: b :: c :: rest)) := by
  conv_lhs => rw [listify.eq_def]

theorem listify_pystr (s : List Char) :
    listify (.pystr s) =
      if _h : ' ' ∈ s then
        if s.head? = some '(' ∧ s.getLast? = some ')' then
          .list (((splitWs ((s.drop 1).dropLast)).attach).map fun t => listify (.pystr t.1))
        else .qstring s
      else .token s := by
  conv_lhs => rw [listify.eq_def]

theorem listify_pybool (b : Bool) :
    listify (.pybool b) = if b then .token ['t'] else .token "nil".data := by
  conv_lhs => rw [listify.eq_def]

theorem listify_pydict (prs : List (PyVal × PyVal)) :
    listify (.pydict prs) = .list (listifyPairs prs) := by
  conv_lhs => rw [listify.eq_def]

theorem listify_pykqml (k : KQML) : listify (.pykqml k) = .token (strForm k) := by
  conv_lhs => rw [listify.eq_def]

theorem listify_pyother (s : List Char) : listify (.pyother s) = .token s := by
  conv_lhs => rw [listify.eq_def]

theorem listifyList_nil : listifyList [] = [] := by
  conv_lhs => rw [listifyList.eq_def]

theorem listifyList_cons (x : PyVal) (xs : List PyVal) :
    listifyList (x :: xs) = listify x :: listifyList xs := by
  conv_lhs => rw [listifyList.eq_def]

theorem listifyPairs_nil : listifyPairs [] = [] := by
  conv_lhs => rw [listifyPairs.eq_def]

theorem listifyPairs_cons (k v : PyVal) (xs : List (PyVal × PyVal)) :
    listifyPairs ((k, v) :: xs) = listify (.pytuple [k, v]) :: listifyPairs xs := by
  conv_lhs => rw [listifyPairs.eq_def]

theorem specListify_pylist (xs : List PyVal) :
    specListify (.pylist xs) = .list (specListifyList xs) := by
  conv_lhs => rw [specListify.eq_def]

theorem specListify_pytuple_pair (a b : PyVal) :
    specListify (.pytuple [a, b]) = .list [specListify a, .token ['.'], specListify b] := by
  conv_lhs => rw [specListify.eq_def]

theorem specListify_pytuple_nil : specListify (.pytuple []) = .list (specListifyList []) := by
  conv_lhs => rw [specListify.eq_def]

theorem specListify_pytuple_one (a : PyVal) :
    specListify (.pytuple [a]) = .list (specListifyList [a]) := by
  conv_lhs => rw [specListify.eq_def]

theorem specListify_pytuple_big (a b c : PyVal) (rest : List PyVal) :
    specListify (.pytuple (a :: b :: c :: rest)) =
      .list (specListifyList (a :: b :: c :: rest)) := by
  conv_lhs => rw [specListify.eq_def]

theorem specListify_pystr (s : List Char) :
    specListify (.pystr s) =
      if _h : ' ' ∉ s then .token s
      else if s.head? = some '(' ∧ s.getLast? = some ')' then
        .list (((splitWs ((s.drop 1).dropLast)).attach).map fun t => specListify (.pystr t.1))
      else .qstring s := by
  conv_lhs => rw [specListify.eq_def]

theorem specListify_pybool (b : Bool) :
    specListify (.pybool b) = if b then .token ['t'] else .token "nil".data := by
  conv_lhs => rw [specListify.eq_def]

theorem specListify_pydict (prs : List (PyVal × PyVal)) :
    specListify (.pydict prs) = .list (specListifyPairs prs) := by
  conv_lhs => rw [specListify.eq_def]

theorem specListify_pykqml (k : KQML) : specListify (.pykqml k) = .token (strForm k) := by
  conv_lhs => rw [specListify.eq_def]

theorem specListify_pyother (s : List Char) : specListify (.pyother s) = .token s := by
  conv_lhs => rw [specListify.eq_def]

theorem specListifyList_nil : specListifyList [] = [] := by
  conv_lhs => rw [specListifyList.eq_def]

theorem specListifyList_cons (x : PyVal) (xs : List PyVal) :
    specListifyList (x :: xs) = specListify x :: specListifyList xs := by
  conv_lhs => rw [specListifyList.eq_def]

theorem specListifyPairs_nil : specListifyPairs [] = [] := by
  conv_lhs => rw [specListifyPairs.eq_def]

theorem specListifyPairs_cons (k v : PyVal) (xs : List (PyVal × PyVal)) :
    specListifyPairs ((k, v) :: xs) =
      .list [specListify k, .token ['.'], specListify v] :: specListifyPairs xs := by
  conv_lhs => rw [specListifyPairs.eq_def]

theorem listify_agrees_upto : ∀ n,
    (∀ v, pySize v ≤ n → listify v = specListify v) ∧
    (∀ l, pyListSize l ≤ n → listifyList l = specListifyList l) ∧
    (∀ ps, pyPairsSize ps ≤ n → listifyPairs ps = specListifyPairs ps) := by
  intro n
  induction n using Nat.strong_induction_on with
  | _ n ih =>
    refine ⟨?_, ?_, ?_⟩
    · intro v hv
      match v with
      | .pylist xs =>
        have hxs : pyListSize xs < n := by simp only [pySize] at hv; omega
        rw [listify_pylist, specListify_pylist, (ih (pyListSize xs) hxs).2.1 xs le_rfl]
      | .pytuple [a, b] =>
        have hsz : pySize a < n ∧ pySize b < n := by
          simp only [pySize, pyListSize] at hv; omega
        rw [listify_pytuple_pair, specListify_pytuple_pair,
            (ih (pySize a) hsz.1).1 a le_rfl, (ih (pySize b) hsz.2).1 b le_rfl]
      | .pytuple [] =>
        rw [listify_pytuple_nil, specListify_pytuple_nil, listifyList_nil, specListifyList_nil]
      | .pytuple [a] =>
        have hsz : pyListSize [a] < n := by simp only [pySize] at hv; omega
        rw [listify_pytuple_one, specListify_pytuple_one, (ih (pyListSize [a]) hsz).2.1 [a] le_rfl]
      | .pytuple (a :: b :: c :: rest) =>
        have hsz : pyListSize (a :: b :: c :: rest) < n := by simp only [pySize] at hv; omega
        rw [listify_pytuple_big, specListify_pytuple_big,
            (ih (pyListSize (a :: b :: c :: rest)) hsz).2.1 _ le_rfl]
      | .pystr s =>
        rw [listify_pystr, specListify_pystr]
        by_cases hsp : ' ' ∈ s
        · by_cases hpar : s.head? = some '(' ∧ s.getLast? = some ')'
          · rw [dif_pos hsp, if_pos hpar, dif_neg (not_not_intro hsp), if_pos hpar]
            congr 1
            apply List.map_congr_left
            rintro ⟨t, ht⟩ _
            have hlt : pySize (.pystr t) < n := by
              have := piece_length_lt hsp ht
              simp only [pySize] at hv ⊢
              omega
            exact (ih (pySize (.pystr t)) hlt).1 _ le_rfl
          · rw [dif_pos hsp, if_neg hpar, dif_neg (not_not_intro hsp), if_neg hpar]
        · rw [dif_neg hsp, dif_pos hsp]
      | .pybool b => rw [listify_pybool, specListify_pybool]
      | .pydict prs =>
        have hprs : pyPairsSize prs < n := by simp only [pySize] at hv; omega
        rw [listify_pydict, specListify_pydict, (ih (pyPairsSize prs) hprs).2.2 prs le_rfl]
      | .pykqml k => rw [listify_pykqml, specListify_pykqml]
      | .pyother s => rw [listify_pyother, specListify_pyother]
    · intro l hl
      match l with
      | [] => rw [listifyList_nil, specListifyList_nil]
      | x :: xs =>
        have hsz : pySize x < n ∧ pyListSize xs < n := by
          simp only [pyListSize] at hl; omega
        rw [listifyList_cons, specListifyList_cons,
            (ih (pySize x) hsz.1).1 x le_rfl, (ih (pyListSize xs) hsz.2).2.1 xs le_rfl]
    · intro ps hps
      match ps with
      | [] => rw [listifyPairs_nil, specListifyPairs_nil]
      | (k, v) :: xs =>
        have hsz : pySize k < n ∧ pySize v < n ∧ pyPairsSize xs < n := by
          simp only [pyPairsSize] at hps; omega
        rw [listifyPairs_cons, specListifyPairs_cons, listify_pytuple_pair,
            (ih (pySize k) hsz.1).1 k le_rfl, (ih (pySize v) hsz.2.1).1 v le_rfl,
            (ih (pyPairsSize xs) hsz.2.2).2.2 xs le_rfl]

/-- C3 (amended): `listify` implements exactly the stated first-match
precedence, with the string test being "contains no space character" rather
than "contains no whitespace": for every input value, `listify` agrees with
the rule-by-rule specification function `specListify`. -/
theorem listify_matches_spec (v : PyVal) : listify v = specListify v :=
  (listify_agrees_upto (pySize v)).1 v le_rfl

/-- C3 counterexample: the string "a\tb" contains whitespace (a tab) but no
space character, so by the claim it should become a `QuotedString`; the code
tests only for a space (`' ' in possible_list`) and returns a `Token`. -/
theorem listify_whitespace_counterexample :
    listify (.pystr ['a', '\t', 'b']) = .token ['a', '\t', 'b'] ∧
    ('\t').isWhitespace = true ∧
    KQML.token ['a', '\t', 'b'] ≠ KQML.qstring ['a', '\t', 'b'] :=
  ⟨by rw [listify_pystr, dif_neg (by decide : ¬ (' ' ∈ ['a', '\t', 'b']))],
   by decide, by simp⟩

/-- Python `str(each[0])` for a pykqml object `each` (the variable test of
`response_to_query`, source line 471): indexing a token or quoted string
yields the first character of its text, indexing a list yields its first
element (whose `str()` form is then taken); an empty object raises
`IndexError`. -/
def strOfIndex0 : KQML → Except PyErr (List Char)
  | .token s =>
    match s with
    | [] => .error .indexError
    | c :: _ => .ok [c]
  | .qstring s =>
    match s with
    | [] => .error .indexError
    | c :: _ => .ok [c]
  | .list xs =>
    match xs with
    | [] => .error .indexError
    | x :: _ => .ok (strForm x)

/-- `results if isinstance(results, list) else [results]` (source line 466). -/
def flattenResults : PyVal → List PyVal
  | .pylist xs => xs
  | r => [r]

/-- The `for i, each in enumerate(content.data[1:])` loop of
`response_to_query` (source lines 469-482), with the loop index `i`, the
running `result_index`, and `arg_len` passed explicitly.  A variable argument
(`str(each[0]) == '?'`) takes `results_list[result_index:]` when
`i == arg_len and result_index < len(results_list)-1` and
`results_list[result_index]` otherwise (raising `IndexError` out of range),
appends the listified pattern (pattern mode) or listified
`(each, pattern)` tuple (bind mode), and bumps `result_index`; a non-variable
argument is appended unchanged in pattern mode and dropped in bind mode. -/
def queryLoop (patternMode : Bool) (argLen : Nat) (resultsList : List PyVal) :
    List KQML → Nat → Nat → Except PyErr (List KQML)
  | [], _, _ => .ok []
  | each :: rest, i, resultIndex =>
    match strOfIndex0 each with
    | .error e => .error e
    | .ok s0 =>
      if s0 = ['?'] then
        match
          (if i = argLen ∧ resultIndex < resultsList.length - 1 then
            Except.ok (PyVal.pylist (resultsList.drop resultIndex))
          else
            match resultsList[resultIndex]? with
            | some r => Except.ok r
            | none => Except.error PyErr.indexError) with
        | .error e => .error e
        | .ok pattern =>
          match queryLoop patternMode argLen resultsList rest (i + 1) (resultIndex + 1) with
          | .error e => .error e
          | .ok tail =>
            .ok (listify (if patternMode then pattern
                          else .pytuple [.pykqml each, pattern]) :: tail)
      else if patternMode then
        match queryLoop patternMode argLen resultsList rest (i + 1) resultIndex with
        | .error e => .error e
        | .ok tail => .ok (each :: tail)
      else queryLoop patternMode argLen resultsList rest (i + 1) resultIndex

/-- Embedding of `response_to_query` (source lines 441-485), restricted to the
construction of `reply_content`: `queryHead` is `content.head()`, `args` is
`content.data[1:]`, and the returned term is the final value of
`reply_content` (a `KQMLList` seeded with the head token, per the pykqml
`KQMLList(str)` constructor).  `response_type = response_type is None or
response_type == ':pattern'` selects pattern mode.  The surrounding
`(tell ...)` wrapper and the `self.reply` send are connection-level and not
modelled; an uncaught `IndexError` from the loop is returned as the error. -/
def response_to_query (queryHead : List Char) (args : List KQML)
    (results : PyVal) (response_type : Option (List Char)) : Except PyErr KQML :=
  let patternMode : Bool :=
    match response_type with
    | none => true
    | some s => s == ":pattern".data
  let results_list := flattenResults results
  match queryLoop patternMode args.length results_list args 0 0 with
  | .error e => .error e
  | .ok items => .ok (.list (.token queryHead :: items))

/-- The per-argument processing rules of the specification (claim C2, with
the variable test amended to the code's `str(each[0]) == '?'`): walking the
arguments in lockstep with the results, a variable argument consumes exactly
one result — substituted (marshalled) in its place in pattern mode, emitted
as the dotted pair of the argument and the result in bind mode — while a
non-variable argument is copied through unchanged in pattern mode and
dropped in bind mode; a variable with no results left raises `IndexError`. -/
def c2Spec (pm : Bool) : List KQML → List PyVal → Except PyErr (List KQML)
  | [], _ => .ok []
  | each :: rest, results =>
    match strOfIndex0 each with
    | .error e => .error e
    | .ok s0 =>
      if s0 = ['?'] then
        match results with
        | [] => .error .indexError
        | r :: rs =>
          match c2Spec pm rest rs with
          | .error e => .error e
          | .ok tail =>
            .ok ((if pm then listify r
                  else .list [.token (strForm each), .token ['.'], listify r]) :: tail)
      else if pm then
        match c2Spec pm rest results with
        | .error e => .error e
        | .ok tail => .ok (each :: tail)
      else c2Spec pm rest results

theorem getElem?_eq_head?_drop {α} : ∀ (l : List α) (n : Nat), l[n]? = (l.drop n).head? := by
  intro l
  induction l with
  | nil => intro n; cases n <;> simp
  | cons a as ih =>
    intro n
    cases n with
    | zero => simp
    | succ m => simpa using ih m

theorem drop_succ_eq {α} : ∀ (l : List α) (n : Nat) (r : α) (rs : List α),
    l.drop n = r :: rs → l.drop (n + 1) = rs := by
  intro l
  induction l with
  | nil => intro n r rs h; simp at h
  | cons a as ih =>
    intro n r rs h
    cases n with
    | zero =>
      simp at h ⊢
      exact h.2
    | succ m =>
      simp only [List.drop] at h ⊢
      exact ih m r rs h

/-- On every reachable loop state (`i` plus the remaining argument count is
`arg_len`), the loop agrees with the sequential-consumption specification;
in particular the `i == arg_len` absorb guard never fires. -/
theorem queryLoop_eq_c2Spec (pm : Bool) (argLen : Nat) (rl : List PyVal) :
    ∀ (l : List KQML) (i ri : Nat), i + l.length = argLen →
      queryLoop pm argLen rl l i ri = c2Spec pm l (rl.drop ri) := by
  intro l
  induction l with
  | nil => intro i ri _; rfl
  | cons each rest ih =>
    intro i ri hlen
    have hi : ¬ (i = argLen) := by
      simp only [List.length_cons] at hlen
      omega
    have hguard : ¬ (i = argLen ∧ ri < rl.length - 1) := fun hc => hi hc.1
    cases hso : strOfIndex0 each with
    | error e => simp [queryLoop, c2Spec, hso]
    | ok s0 =>
      by_cases hq : s0 = ['?']
      · cases hdrop : rl.drop ri with
        | nil =>
          have hget : rl[ri]? = none := by rw [getElem?_eq_head?_drop, hdrop]; rfl
          simp [queryLoop, c2Spec, hso, hq, hguard, hget, hdrop]
        | cons r rs =>
          have hget : rl[ri]? = some r := by rw [getElem?_eq_head?_drop, hdrop]; rfl
          have hdrop1 : rl.drop (ri + 1) = rs := drop_succ_eq rl ri r rs hdrop
          have hrec := ih (i + 1) (ri + 1) (by simp only [List.length_cons] at hlen ⊢; omega)
          rw [hdrop1] at hrec
          cases pm with
          | false =>
            simp [queryLoop, c2Spec, hso, hq, hguard, hget, hdrop, hrec,
                  listify_pytuple_pair, listify_pykqml]
          | true => simp [queryLoop, c2Spec, hso, hq, hguard, hget, hdrop, hrec]
      · have hrec := ih (i + 1) ri (by simp only [List.length_cons] at hlen ⊢; omega)
        cases pm with
        | false => simp [queryLoop, c2Spec, hso, hq, hrec]
        | true => simp [queryLoop, c2Spec, hso, hq, hrec]

/-- C2 (amended): `response_to_query` processes each query argument by the
stated rules, with the variable test being the code's `str(each[0]) == '?'`
(for a token or quoted-string argument, its first character; for a list
argument, whether its first element prints as `?`): a variable argument
consumes one result — the marshalled result in place of the variable in
pattern mode (the default when the response type is absent), the dotted pair
of argument and result in bind mode — and a non-variable argument is copied
through unchanged in pattern mode and dropped in bind mode. -/
theorem response_to_query_matches_spec (queryHead : List Char) (args : List KQML)
    (results : PyVal) (response_type : Option (List Char)) :
    response_to_query queryHead args results response_type =
      (c2Spec (match response_type with
                | none => true
                | some s => s == ":pattern".data)
          args (flattenResults results)).map
        (fun items => KQML.list (.token queryHead :: items)) := by
  simp only [response_to_query]
  rw [queryLoop_eq_c2Spec _ _ _ args 0 0 (by simp), List.drop_zero]
  cases c2Spec _ args (flattenResults results) <;> simp [Except.map]

/-- C2 counterexample: a list argument whose first element prints as `?` is
treated as a variable by the code even though the argument's own first
character is `(`, not the variable sigil: with query `(pred (?))` and results
`["r"]` in pattern mode the code consumes the result and substitutes it,
instead of copying the (per the claim, non-variable) argument through
unchanged. -/
theorem response_to_query_variable_test_counterexample :
    response_to_query "pred".data [.list [.token ['?']]]
        (.pylist [.pyother "r".data]) none =
      .ok (.list [.token "pred".data, .token "r".data]) ∧
    KQML.list [.token "pred".data, .token "r".data] ≠
      KQML.list [.token "pred".data, .list [.token ['?']]] := by
  constructor
  · rw [response_to_query]
    simp [flattenResults, queryLoop, strOfIndex0, strForm, listify_pyother]
  · simp

/-- C1: the "final argument absorbs all remaining results" rule is dead code.
With query `(pred ?x)` and two results in pattern mode — the final argument
is a variable and two unconsumed results remain — the reply binds the single
first result, not the list of all remaining results: the guard `i == arg_len`
compares the 0-based loop index against `len(args)` and never holds. -/
theorem response_to_query_no_absorb :
    response_to_query "pred".data [.token "?x".data]
        (.pylist [.pyother "r1".data, .pyother "r2".data]) none =
      .ok (.list [.token "pred".data, .token "r1".data]) ∧
    KQML.list [.token "pred".data, .token "r1".data] ≠
      KQML.list [.token "pred".data, .list [.token "r1".data, .token "r2".data]] := by
  constructor
  · rw [response_to_query]
    simp [flattenResults, queryLoop, strOfIndex0, listify_pyother]
  · simp

/-- The code's variable test as a Boolean: `str(each[0]) == '?'` (false when
indexing would raise). -/
def isVarCode (a : KQML) : Bool :=
  match strOfIndex0 a with
  | .ok s => s == ['?']
  | .error _ => false

/-- Number of arguments the code treats as variables. -/
def countVars (args : List KQML) : Nat := args.countP isVarCode

theorem strOfIndex0_error_is_index {a : KQML} {e : PyErr}
    (h : strOfIndex0 a = .error e) : e = .indexError := by
  cases a with
  | token s => cases s <;> simp [strOfIndex0] at h <;> simp [h]
  | qstring s => cases s <;> simp [strOfIndex0] at h <;> simp [h]
  | list xs => cases xs <;> simp [strOfIndex0] at h <;> simp [h]

theorem c2Spec_overflow (pm : Bool) : ∀ (l : List KQML) (res : List PyVal),
    res.length < countVars l → c2Spec pm l res = .error .indexError := by
  intro l
  induction l with
  | nil =>
    intro res h
    simp [countVars] at h
  | cons each rest ih =>
    intro res h
    cases hso : strOfIndex0 each with
    | error e =>
      have he := strOfIndex0_error_is_index hso
      subst he
      simp [c2Spec, hso]
    | ok s0 =>
      by_cases hq : s0 = ['?']
      · cases res with
        | nil => simp [c2Spec, hso, hq]
        | cons r rs =>
          have hrs : rs.length < countVars rest := by
            simp only [countVars, List.countP_cons, isVarCode, hso, hq,
              List.length_cons] at h ⊢
            simp at h
            omega
          simp [c2Spec, hso, hq, ih rs hrs]
      · have hsame : countVars (each :: rest) = countVars rest := by
          simp only [countVars, List.countP_cons, isVarCode, hso]
          simp [hq]
        rw [hsame] at h
        cases pm with
        | false => simp [c2Spec, hso, hq, ih res h]
        | true => simp [c2Spec, hso, hq, ih res h]

/-- C10: the indexing `results_list[result_index]` is unguarded — whenever the
query's arguments contain more variable terms than the (flattened) results
sequence has elements, `response_to_query` raises `IndexError`; no
precondition check prevents it. -/
theorem response_to_query_index_overflow (queryHead : List Char) (args : List KQML)
    (results : PyVal) (response_type : Option (List Char))
    (h : (flattenResults results).length < countVars args) :
    response_to_query queryHead args results response_type = .error .indexError := by
  simp only [response_to_query]
  rw [queryLoop_eq_c2Spec _ _ _ args 0 0 (by simp), List.drop_zero,
      c2Spec_overflow _ args (flattenResults results) h]

/-- C10 witness: a query with one variable argument and an empty results list
raises `IndexError`. -/
theorem response_to_query_index_overflow_witness :
    (flattenResults (.pylist [])).length < countVars [.token "?x".data] ∧
    response_to_query "q".data [.token "?x".data] (.pylist []) none =
      .error .indexError :=
  ⟨by decide, response_to_query_index_overflow _ _ _ _ (by decide)⟩

/-- One line of a `portnum.dat` file, abstracted at the JSON level:
`record port? pid?` is a line that `json.loads` parses to a dict, with the
optional integer values at the keys `port` and `pid` (other keys are never
consulted by the code); `garbage` is a line that `json.loads` rejects
(including the empty string read from an empty file). -/
inductive PortLine where
  | record (portField : Option Int) (pidField : Option Int)
  | garbage

/-- Embedding of `get_port` (source lines 795-824).  The file argument is
`none` when `portnum_path.exists()` is false, otherwise the list of the
file's lines; `portnum_file.readline()` reads the first line (the empty,
unparseable string for an empty file).  `load_dict` (`json.loads`) raises on
an unparseable line; a record without `'port'` returns `None`; under
`verify` the two `assert` statements require `'pid'` to be present and equal
to `process_pid`, raising `AssertionError` otherwise; finally the port value
is returned. -/
def get_port (portnumFile : Option (List PortLine)) (process_pid : Int)
    (verify : Bool) : Except PyErr (Option Int) :=
  match portnumFile with
  | none => .ok none
  | some lines =>
    match lines.headD .garbage with
    | .garbage => .error .jsonDecodeError
    | .record portField pidField =>
      match portField with
      | none => .ok none
      | some port =>
        if verify then
          match pidField with
          | none => .error .assertionError
          | some pid =>
            if process_pid = pid then .ok (some port) else .error .assertionError
        else .ok (some port)

/-- C4 (amended): `get_port` returns absent for a nonexistent file, reads
exactly the first line, returns absent when the parsed record lacks the
`port` field, and returns the port for a valid record with `verify = false`;
but an unparseable first line raises the `json.loads` error to the caller
rather than yielding absent. -/
theorem get_port_behaviour :
    (∀ (pid : Int) (verify : Bool), get_port none pid verify = .ok none) ∧
    (∀ (pid : Int) (verify : Bool) (line : PortLine) (rest : List PortLine),
      get_port (some (line :: rest)) pid verify = get_port (some [line]) pid verify) ∧
    (∀ (pid : Int) (verify : Bool) (pidField : Option Int) (rest : List PortLine),
      get_port (some (.record none pidField :: rest)) pid verify = .ok none) ∧
    (∀ (pid port : Int) (pidField : Option Int) (rest : List PortLine),
      get_port (some (.record (some port) pidField :: rest)) pid false = .ok (some port)) ∧
    (∀ (pid : Int) (verify : Bool) (rest : List PortLine),
      get_port (some (.garbage :: rest)) pid verify = .error .jsonDecodeError) :=
  ⟨fun _ _ => rfl, fun _ _ _ _ => rfl, fun _ _ _ _ => rfl, fun _ _ _ _ => rfl,
   fun _ _ _ => rfl⟩

/-- C4 counterexample: a file whose first line is unparseable makes
`get_port` raise the `json.loads` error — it does not yield absent as the
claim states. -/
theorem get_port_unparseable_counterexample :
    get_port (some [.garbage]) 0 false = .error .jsonDecodeError ∧
    (Except.error PyErr.jsonDecodeError : Except PyErr (Option Int)) ≠ .ok none :=
  ⟨rfl, by simp⟩

/-- C5: for an existing record containing `port`, `get_port` with
`verify = true` returns the port exactly when the record's `pid` field is
present and equal to the expected pid; a missing or mismatched pid raises
the assertion error (the spec's `PortVerificationFailed`) to the caller —
never a silent absent. -/
theorem get_port_verify (port : Int) (pidField : Option Int) (expected : Int)
    (rest : List PortLine) :
    get_port (some (.record (some port) pidField :: rest)) expected true =
      match pidField with
      | none => .error .assertionError
      | some pid =>
        if expected = pid then .ok (some port) else .error .assertionError := by
  cases pidField <;> rfl

/-- Fault model for one `send` call: which of the underlying OS operations
fail.  `connectFails`: `send_socket.connect` raises OSError;
`msgWriteFails`: `msg.write(out)` raises IOError; `termWriteFails`:
`out.write(b'\x5cn')` raises IOError; `flushFails`: `out.flush()` raises
IOError. -/
structure SendEnv where
  connectFails : Bool
  msgWriteFails : Bool
  termWriteFails : Bool
  flushFails : Bool

/-- Connection-relevant state of the agent object: how many OS-level sockets
it currently holds open, and whether `self.send_socket` / `self.out` are set
(not None).  A socket counts as open from `socket()` creation until
`close()`; garbage collection is not modelled (after a failed `send` the
attributes still reference the socket, keeping it open). -/
structure ConnState where
  openSockets : Nat
  sendSocketSet : Bool
  outSet : Bool
  deriving DecidableEq, Repr

/-- Events observable on the outbound wire buffer during `send_generic`. -/
inductive WireEvent where
  | msgWrite
  | termWrite
  | flush
  deriving DecidableEq, Repr

/-- Embedding of `connect` (source lines 260-272): creates a fresh socket and
assigns it to `self.send_socket`, then tries to connect and wrap a writer
into `self.out`; an OSError is caught and merely logged, leaving `self.out`
untouched; the trailing `assert self.out is not None` then raises
`AssertionError` when no writer was produced and none was left over. -/
def connect (env : SendEnv) (s : ConnState) : ConnState × Except PyErr Unit :=
  let s1 : ConnState := { s with openSockets := s.openSockets + 1, sendSocketSet := true }
  if env.connectFails then
    if s1.outSet then (s1, .ok ()) else (s1, .error .assertionError)
  else
    ({ s1 with outSet := true }, .ok ())

/-- Embedding of `send_generic` (source lines 314-330): writes the message
(an IOError from `msg.write` is caught and logged), then writes the newline
terminator and flushes — IOErrors from those two calls are not caught and
propagate.  Returns the wire events that reached the buffer. -/
def send_generic (env : SendEnv) : List WireEvent × Except PyErr Unit :=
  let msgEvents : List WireEvent := if env.msgWriteFails then [] else [.msgWrite]
  if env.termWriteFails then (msgEvents, .error .ioError)
  else if env.flushFails then (msgEvents ++ [.termWrite], .error .ioError)
  else (msgEvents ++ [.termWrite, .flush], .ok ())

/-- Embedding of `send` (source lines 274-286): `connect`, `send_generic` on
`self.out`, then `shutdown`/`close` of the socket and clearing of
`send_socket` and `out`.  There is no try/finally: an exception raised by
`connect` or `send_generic` propagates and the shutdown/close/clear lines
never run. -/
def send (env : SendEnv) (s : ConnState) :
    ConnState × List WireEvent × Except PyErr Unit :=
  match connect env s with
  | (s1, .error e) => (s1, [], .error e)
  | (s1, .ok ()) =>
    match send_generic env with
    | (evs, .error e) => (s1, evs, .error e)
    | (evs, .ok ()) =>
      ({ openSockets := s1.openSockets - 1, sendSocketSet := false, outSet := false },
        evs, .ok ())

/-- C6 (amended): starting from a clean state, `send` opens exactly one fresh
connection per call (never reusing one); on the success path it writes the
message, the line terminator, flushes, and shuts the connection down, ending
with no open socket and cleared attributes; an IOError from the message-body
write is caught and the terminator write and flush still happen; but an
IOError from the terminator write or the flush (and the assertion failure
after a connect failure) propagates and the connection is left open — the
unconditional-close part of the claim fails. -/
theorem send_characterisation (env : SendEnv) (n : Nat) :
    send env ⟨n, false, false⟩ =
      if env.connectFails then
        (⟨n + 1, true, false⟩, [], .error .assertionError)
      else if env.termWriteFails then
        (⟨n + 1, true, true⟩, if env.msgWriteFails then [] else [.msgWrite],
          .error .ioError)
      else if env.flushFails then
        (⟨n + 1, true, true⟩,
          (if env.msgWriteFails then [] else [.msgWrite]) ++ [.termWrite],
          .error .ioError)
      else
        (⟨n, false, false⟩,
          (if env.msgWriteFails then [] else [.msgWrite]) ++ [.termWrite, .flush],
          .ok ()) := by
  obtain ⟨cf, mf, tf, ff⟩ := env
  cases cf <;> cases mf <;> cases tf <;> cases ff <;> rfl

/-- C6 counterexample: when the terminator write raises an IOError, `send`
propagates the error with the socket still open and `send_socket` still set
— the connection is not closed on that exit path. -/
theorem send_write_error_leak_counterexample :
    (send ⟨false, false, true, false⟩ ⟨0, false, false⟩).2.2 = .error .ioError ∧
    (send ⟨false, false, true, false⟩ ⟨0, false, false⟩).1.openSockets = 1 ∧
    (send ⟨false, false, true, false⟩ ⟨0, false, false⟩).1.sendSocketSet = true :=
  ⟨rfl, rfl, rfl⟩

/-- C7 (amended): `connect` always allocates a fresh socket and assigns it to
`send_socket` before attempting the OS connect; when the connect raises an
OS-level error, the error is caught and logged, and the method then raises
an `AssertionError` (since no writer was set) when no stale writer is
retained — while the fresh, unconnected socket stays assigned to
`send_socket`, a dangling resource. -/
theorem connect_characterisation (env : SendEnv) (n : Nat) (ss os : Bool) :
    connect env ⟨n, ss, os⟩ =
      if env.connectFails then
        (⟨n + 1, true, os⟩, if os then .ok () else .error .assertionError)
      else (⟨n + 1, true, true⟩, .ok ()) := by
  obtain ⟨cf, mf, tf, ff⟩ := env
  cases cf <;> cases os <;> rfl

/-- C7 counterexample: on a connect failure from a clean state the caller
sees an `AssertionError` (not a `ConnectionError`), and the
partially-initialized socket remains retained in `send_socket` — a dangling
resource, contradicting the claim. -/
theorem connect_failure_dangling_counterexample :
    connect ⟨true, false, false, false⟩ ⟨0, false, false⟩ =
      (⟨1, true, false⟩, .error .assertionError) ∧
    (⟨1, true, false⟩ : ConnState).sendSocketSet = true ∧
    (⟨1, true, false⟩ : ConnState).openSockets = 1 :=
  ⟨rfl, rfl, rfl⟩

/-- A process as seen through psutil's
`process_iter(attrs=['pid', 'name', 'exe'])`: its name, pid, and the
directory containing its executable (`Path(exe).parent`, so that
`Path(exe).with_name('portnum.dat')` is the directory joined with
`portnum.dat`). -/
structure Proc where
  name : List Char
  pid : Int
  dir : List Char

/-- System state consumed by `check_for_companions`: the running processes in
enumeration order (psutil's `process_iter` is a generator — it yields each
process at most once, across all searches that share it), the filesystem as
a map from a path to the portnum file's lines (`none` when absent), the disk
mountpoints, the home directory, and which directories exist. -/
structure SysEnv where
  procs : List Proc
  fileAt : List Char → Option (List PortLine)
  mounts : List (List Char)
  home : List Char
  dirExists : List Char → Bool

/-- Bool-valued prefix test on char lists. -/
def isPrefixOfChars : List Char → List Char → Bool
  | [], _ => true
  | _ :: _, [] => false
  | a :: as, b :: bs => a == b && isPrefixOfChars as bs

/-- Python `needle in hay` on strings: contiguous substring test. -/
def strContains (needle : List Char) : List Char → Bool
  | [] => needle.isEmpty
  | c :: cs => isPrefixOfChars needle (c :: cs) || strContains needle cs

/-- `next((p.info for p in processes if pred(p)), None)` over a generator:
consumes elements up to and including the first match, returning the match
(if any) together with the unconsumed remainder of the generator. -/
def nextMatch (pred : Proc → Bool) : List Proc → Option Proc × List Proc
  | [] => (none, [])
  | p :: rest => if pred p then (some p, rest) else nextMatch pred rest

/-- The `for name in COMPANIONS_EXES` search loop of `check_for_companions`
(source lines 763-768), threading the shared process generator through the
successive `next(...)` calls. -/
def findCompanion : List (List Char) → List Proc → Option Proc × List Proc
  | [], procs => (none, procs)
  | name :: names, procs =>
    match nextMatch (fun p => strContains name p.name) procs with
    | (some p, rest) => (some p, rest)
    | (none, rest) => findCompanion names rest

/-- `COMPANIONS_EXES` (source line 49). -/
def COMPANIONS_EXES : List (List Char) :=
  ["CompanionsMicroServer64.exe".data, "CompanionsServer64.exe".data]

/-- Python truthiness of `potential_port : Optional[int]`. -/
def pyTruthy : Option Int → Bool
  | none => false
  | some v => v != 0

/-- Embedding of `check_for_companions` (source lines 744-792): search the
process generator for the companions executables in preference order; if one
is found, read the port file next to its executable; if that yielded a
truthy port, return it; otherwise look for a `qrg` directory under the mount
roots and the home directory, search the (already partly consumed) process
generator for `allegro.exe`, and if both are found read
`qrg/companions/v1/portnum.dat` with the allegro pid; return whatever
`potential_port` holds.  Exceptions from `get_port` propagate. -/
def check_for_companions (env : SysEnv) (verify : Bool) : Except PyErr (Option Int) := do
  let (companion, procsAfter) := findCompanion COMPANIONS_EXES env.procs
  let potential ← match companion with
    | some c => get_port (env.fileAt (c.dir ++ "/portnum.dat".data)) c.pid verify
    | none => pure (none : Option Int)
  if pyTruthy potential then
    pure potential
  else
    let qrgRoot := (env.mounts ++ [env.home]).find? fun r => env.dirExists (r ++ "/qrg".data)
    let (allegro, _) := nextMatch (fun p => strContains "allegro.exe".data p.name) procsAfter
    match qrgRoot, allegro with
    | some root, some a =>
      get_port (env.fileAt (root ++ "/qrg/companions/v1/portnum.dat".data)) a.pid verify
    | _, _ => pure potential

/-- The C8 failing input: the only running process is the second preferred
executable, `CompanionsServer64.exe`, with a valid matching port record next
to its executable; no qrg directory exists anywhere. -/
def c8Env : SysEnv where
  procs := [⟨"CompanionsServer64.exe".data, 42, "/opt/companions".data⟩]
  fileAt := fun p =>
    if p = "/opt/companions/portnum.dat".data then some [.record (some 9100) (some 42)]
    else none
  mounts := []
  home := "/root".data
  dirExists := fun _ => false

/-- C8: discovery misses a running `CompanionsServer64.exe`.  The search for
the first executable name consumes the whole `process_iter` generator, so
the search for the second name (and later for `allegro.exe`) scans an
exhausted iterator: with only the second-priority executable running and a
valid matching port record beside it, `check_for_companions` returns absent
instead of that port. -/
theorem check_for_companions_misses_second_exe :
    check_for_companions c8Env false = .ok none ∧
    get_port (c8Env.fileAt "/opt/companions/portnum.dat".data) 42 false =
      .ok (some 9100) :=
  ⟨rfl, rfl⟩

/-- The fields of the agent object relevant to its lifecycle state machine:
the `self.state` string ('idle' in `__init__`), the `self.ready` flag, and
whether `self.dispatcher` is set. -/
structure AgState where
  state : String
  ready : Bool
  hasDispatcher : Bool
  deriving DecidableEq, Repr

/-- Events driving the agent's lifecycle: `accept` is one iteration of the
`listen` loop body (source lines 345-356: accept a connection, submit a
dispatcher to the pool, set `self.state = 'dispatching'` — the loop body
runs only while `self.ready` holds); `eofReceived` is `receive_eof` (source
lines 358-365: shut the dispatcher down, clear it, set
`self.state = 'idle'`); `exitCalled` is `exit` (source lines 375-387: clear
`self.ready`, shut down a live dispatcher, join the listener — it never
assigns `self.state`). -/
inductive AgEvent where
  | accept
  | eofReceived
  | exitCalled

/-- The state established by `__init__` (source lines 138, 144): ready,
idle, no dispatcher. -/
def initAgent : AgState := ⟨"idle", true, false⟩

/-- One step of the agent lifecycle, as the three code sites assign it. -/
def agentStep (s : AgState) : AgEvent → AgState
  | .accept =>
    if s.ready then { s with state := "dispatching", hasDispatcher := true } else s
  | .eofReceived => { s with state := "idle", hasDispatcher := false }
  | .exitCalled => { s with ready := false }

/-- The agent state after a sequence of lifecycle events from startup. -/
def agentRun (es : List AgEvent) : AgState := es.foldl agentStep initAgent

theorem agentStep_state_invariant (s : AgState)
    (h : s.state = "idle" ∨ s.state = "dispatching") (e : AgEvent) :
    (agentStep s e).state = "idle" ∨ (agentStep s e).state = "dispatching" := by
  cases e with
  | accept =>
    by_cases hr : s.ready = true
    · simp [agentStep, hr]
    · simpa [agentStep, hr] using h
  | eofReceived => simp [agentStep]
  | exitCalled => simpa [agentStep] using h

theorem agentRun_state_invariant_aux :
    ∀ (es : List AgEvent) (s : AgState),
      s.state = "idle" ∨ s.state = "dispatching" →
      (es.foldl agentStep s).state = "idle" ∨ (es.foldl agentStep s).state = "dispatching" := by
  intro es
  induction es with
  | nil => intro s h; simpa using h
  | cons e rest ih =>
    intro s h
    simpa using ih (agentStep s e) (agentStep_state_invariant s h e)

/-- C9 (amended): the agent starts in `idle`, moves to `dispatching` when the
listener (while `ready`) accepts a connection and submits its dispatcher,
returns to `idle` when the stream's end-of-input is received, and shutdown
(`exit`) only clears the `ready` flag — it leaves `self.state` unchanged, so
in every execution the state only ever takes the values `idle` and
`dispatching`; no `stopped` value exists. -/
theorem agent_state_machine :
    initAgent.state = "idle" ∧
    (∀ s : AgState, s.ready = true → (agentStep s .accept).state = "dispatching") ∧
    (∀ s : AgState, (agentStep s .eofReceived).state = "idle") ∧
    (∀ s : AgState, (agentStep s .exitCalled).state = s.state ∧
      (agentStep s .exitCalled).ready = false) ∧
    (∀ es : List AgEvent,
      (agentRun es).state = "idle" ∨ (agentRun es).state = "dispatching") := by
  refine ⟨rfl, ?_, ?_, ?_, ?_⟩
  · intro s hr
    simp [agentStep, hr]
  · intro s
    simp [agentStep]
  · intro s
    simp [agentStep]
  · intro es
    exact agentRun_state_invariant_aux es initAgent (Or.inl rfl)

/-- C9 witness: from the initial state, accepting a connection moves the
state to `dispatching`. -/
theorem agent_state_machine_witness :
    (agentStep initAgent .accept).state = "dispatching" :=
  agent_state_machine.2.1 initAgent rfl

/-- C9 counterexample: after `exit` the ready flag is cleared but the state
is still `idle` — there is no terminal `stopped` value, contradicting the
claim that shutdown reaches a `Stopped` state. -/
theorem agent_no_stopped_state_counterexample :
    (agentRun [.exitCalled]).ready = false ∧
    (agentRun [.exitCalled]).state = "idle" ∧
    ("idle" : String) ≠ "stopped" :=
  ⟨rfl, rfl, by decide⟩

end Companions
